import Mathlib

/-!
Shallow embedding of the HITL (human-in-the-loop) hand-off core of this
repository, translated from `src/modules/hitlnext/src/backend/api.ts` and
`src/modules/hitl2/src/backend/api.ts`.  The HTTP handlers are embedded as
pure state-transition functions over an explicit `ServerState`; the
external store (repository), the active-hand-off cache and the session
timers are explicit fields of that state.  Parts of the repository that
are referenced by the handlers but whose source is not included
(`validation.ts`, `repository.ts`, the cache wiring in `index.ts`/
`middleware.ts`, `agentSession.ts`) are modelled from the specification
and marked as such in their doc comments.
-/

/-- Hand-off lifecycle status (`HandoffType` in `types.ts`):
`pending`, `assigned`, `resolved`. -/
inductive HandoffStatus
  | pending
  | assigned
  | resolved
deriving DecidableEq, Repr

/-- A hand-off record (`IHandoff`), as persisted by the store.
Identifiers and timestamps are modelled as naturals drawn from counters in
the server state. -/
structure Handoff where
  id : Nat
  botId : String
  userId : String
  userThreadId : String
  userChannel : String
  agentId : Option String
  agentThreadId : Option String
  status : HandoffStatus
  createdAt : Nat
  assignedAt : Option Nat
  resolvedAt : Option Nat
deriving DecidableEq, Repr

/-- An operator comment on a hand-off (`IComment`).  `threadId` is
denormalized from the hand-off's `userThreadId` at creation time. -/
structure Comment where
  id : Nat
  handoffId : Nat
  threadId : String
  agentId : String
  content : String
  createdAt : Nat
deriving DecidableEq, Repr

/-- A live session-expiry timer, as created by `setTimeout` in
`registerTimeout` (hitl2 `api.ts`, lines 67-87).  `id` is the timer handle
stored in `state.timeouts[agentId]`. -/
structure Timer where
  id : Nat
  agentId : String
deriving DecidableEq, Repr

/-- A realtime fanout event, as published by `realtime.sendPayload`. -/
inductive FanoutEvent
  | handoffCreate (h : Handoff)
  | handoffUpdate (h : Handoff)
  | agentUpdate (agentId : String) (online : Bool)
deriving DecidableEq, Repr

/-- The whole observable server state threaded through the handlers:
the durable store (`handoffs`, `comments`, `agentOnline`), the in-memory
active-hand-off cache, the per-operator timer table (`state.timeouts`)
together with the set of live (armed, uncancelled, unfired) timers, and
the counters used to mint fresh ids and timestamps. -/
structure ServerState where
  handoffs : List Handoff
  comments : List Comment
  agentOnline : List ((String × String) × Bool)
  cache : List ((String × String) × Handoff)
  timeouts : List (String × Nat)
  liveTimers : List Timer
  nextTimerId : Nat
  nextId : Nat
  clock : Nat
deriving DecidableEq, Repr

/-- Errors surfaced to the caller by the handlers. -/
inductive ApiError
  | validationError
  | agentOffline
  | notFound
  | illegalTransition (current requested : HandoffStatus)
deriving DecidableEq, Repr

/-- Successful HTTP responses produced by the handlers.  `statusOnly`
models `res.sendStatus(code)` (a bare status line with no resource body);
the other constructors model `res.status(code).send(body)`. -/
inductive ApiResponse
  | statusOnly (code : Nat)
  | handoffBody (code : Nat) (h : Handoff)
  | commentBody (code : Nat) (c : Comment)
  | onlineBody (online : Bool)
deriving DecidableEq, Repr

deriving instance DecidableEq for Except

/-- Result of running one handler: the state afterwards, the realtime
fanout events emitted (in order), and the response or error returned to
the caller.  A handler that throws returns the state unchanged at the
throw point, matching the source where each throw happens before any
further statement runs. -/
structure HandlerOut where
  state : ServerState
  events : List FanoutEvent
  result : Except ApiError ApiResponse
deriving DecidableEq, Repr

/-- `true` iff the handler result is a success. -/
def resultOk (r : Except ApiError ApiResponse) : Bool :=
  match r with
  | .ok _ => true
  | .error _ => false

/-- The hand-off body carried by a successful response, if any: used to
state what record, if any, a response returns to the caller. -/
def responseHandoff (r : Except ApiError ApiResponse) : Option Handoff :=
  match r with
  | .ok (.handoffBody _ h) => some h
  | _ => none

/-- Key test for the (botId, threadId)- and (botId, agentId)-keyed
association lists making up the cache and the online-flag store. -/
def keyIs {α : Type} (b a : String) (e : (String × String) × α) : Bool :=
  e.1.1 = b ∧ e.1.2 = a

/-- Key test for the agent-keyed timer table. -/
def fstIs {α : Type} (a : String) (e : String × α) : Bool :=
  e.1 = a

/-- Modelled from the spec: the Active-Handoff Cache of section 4.3, "a
mapping keyed by a routing token (conversation thread identity) to the
full Handoff record" (cache wiring in `index.ts`/`middleware.ts` is not in
`src/`).  `cacheGet` looks up the entry under key (botId, threadId). -/
def cacheGet (c : List ((String × String) × Handoff)) (b t : String) : Option Handoff :=
  (c.find? (keyIs b t)).map (fun e => e.2)

/-- Modelled from the spec: `state.cacheHandoff(botId, threadId, handoff)`
inserts or replaces the cache entry under key (botId, threadId). -/
def cachePut (c : List ((String × String) × Handoff)) (b t : String) (h : Handoff) :
    List ((String × String) × Handoff) :=
  ((b, t), h) :: c.filter (fun e => !keyIs b t e)

/-- Modelled from the spec: `state.expireHandoff(botId, threadId)` removes
the cache entry under key (botId, threadId). -/
def cacheDel (c : List ((String × String) × Handoff)) (b t : String) :
    List ((String × String) × Handoff) :=
  c.filter (fun e => !keyIs b t e)

/-- Modelled from the spec: the store's `setOperatorOnline(tenant,
operatorId, bool)` of section 6 (`repository.setAgentOnline`; the
repository source is not in `src/`).  The returned flag equals the flag
written, which the handlers echo in their responses. -/
def setAgentOnline (s : ServerState) (b a : String) (v : Bool) : ServerState :=
  { s with agentOnline :=
      ((b, a), v) :: s.agentOnline.filter (fun e => !keyIs b a e) }

/-- Modelled from the spec: the store's `getOperatorOnline(tenant,
operatorId) -> bool` of section 6 (`repository.getAgentOnline`).  An
operator with no record is offline. -/
def getAgentOnline (s : ServerState) (b a : String) : Bool :=
  ((s.agentOnline.find? (keyIs b a)).map (fun e => e.2)).getD false

/-- `state.timeouts[agentId]`: the timer handle last registered for the
operator, if any. -/
def lookupTimeout (s : ServerState) (a : String) : Option Nat :=
  (s.timeouts.find? (fstIs a)).map (fun e => e.2)

/-- `unregisterTimeout(agentId)` (hitl2 `api.ts`, lines 89-93): if a timer
handle is recorded for the operator, `clearTimeout` it — the timer stops
being live; the `timeouts` table entry itself is not deleted. -/
def unregisterTimeout (s : ServerState) (a : String) : ServerState :=
  match lookupTimeout s a with
  | some tid => { s with liveTimers := s.liveTimers.filter (fun t => ¬t.id = tid) }
  | none => s

/-- `registerTimeout(botId, agentId)` (hitl2 `api.ts`, lines 67-87): first
clears the previously registered timeout for the operator, then arms a
fresh timer and records its handle in `state.timeouts[agentId]`. -/
def registerTimeout (s : ServerState) (a : String) : ServerState :=
  let s1 := unregisterTimeout s a
  { s1 with
    liveTimers := s1.liveTimers ++ [⟨s1.nextTimerId, a⟩],
    timeouts := (a, s1.nextTimerId) :: s1.timeouts.filter (fun e => !fstIs a e),
    nextTimerId := s1.nextTimerId + 1 }

/-- The body of the `setTimeout` callback in `registerTimeout` (hitl2
`api.ts`, lines 75-86): on expiry it re-reads the operator's online flag
from the store and publishes an agent `update` fanout event carrying that
flag.  It performs no store write and the event is emitted
unconditionally. -/
def timerExpiryCallback (s : ServerState) (b a : String) : ServerState × List FanoutEvent :=
  let online := getAgentOnline s b a
  (s, [.agentUpdate a online])

/-- `extendAgentSession(workspace, botId, agentId)` (hitlnext `api.ts`,
lines 68-72): marks the operator online in the store and re-arms their
session-expiry timer.  The timer registration follows the in-source hitl2
`registerTimeout`; hitlnext's `agentSession.ts` is not in `src/` and the
spec (section 9) describes the two variants as materially identical. -/
def extendAgentSession (s : ServerState) (b a : String) : ServerState :=
  registerTimeout (setAgentOnline s b a true) a

/-- The filter of the duplicate-check store query in the create handler
(hitlnext `api.ts`, lines 179-188): same `botId`, `userId`,
`userThreadId`, `userChannel`, and status not `resolved`. -/
def matchesTuple (h : Handoff) (b u t c : String) : Bool :=
  h.botId = b ∧ h.userId = u ∧ h.userThreadId = t ∧ h.userChannel = c ∧
    ¬h.status = HandoffStatus.resolved

/-- All records of a store snapshot passing the duplicate-check filter, in
store order. -/
def activeMatchesL (l : List Handoff) (b u t c : String) : List Handoff :=
  l.filter (fun h => matchesTuple h b u t c)

/-- All store records passing the duplicate-check filter, in store order. -/
def activeMatches (s : ServerState) (b u t c : String) : List Handoff :=
  activeMatchesL s.handoffs b u t c

/-- `orderBy('createdAt')` ascending, `limit(1)`, then `_.head`: the first
record (in store order) among those of minimal `createdAt`; `none` when
the filtered list is empty. -/
def firstByCreatedAt : List Handoff → Option Handoff
  | [] => none
  | h :: t =>
    match firstByCreatedAt t with
    | none => some h
    | some h2 => if h2.createdAt < h.createdAt then some h2 else some h

/-- The whole duplicate-check query of the create handler
(`repository.handoffsQuery`, hitlnext `api.ts`, lines 178-189). -/
def duplicateCheck (s : ServerState) (b u t c : String) : Option Handoff :=
  firstByCreatedAt (activeMatches s b u t c)

/-- Input of the create handler.  `valid` is the outcome of
`Joi.attempt(payload, CreateHandoffSchema)`; the schema itself lives in
the `validation.ts` not included in `src/` and is modelled from the spec
as an opaque per-request verdict. -/
structure CreateRequest where
  botId : String
  userId : String
  userThreadId : String
  userChannel : String
  valid : Bool
deriving DecidableEq, Repr

/-- `router.post('/handoffs')` (hitlnext `api.ts`, lines 167-225):
validate the payload; query the store for a non-`resolved` hand-off with
the same (botId, userId, userThreadId, userChannel); if one exists,
respond `res.sendStatus(200)` and do nothing else; otherwise persist a
`pending` hand-off, insert it in the cache under the user-thread key, emit
a `create` fanout event and respond 201 with the record.
`newHandoff` is the `pending` record the handler constructs and persists. -/
def newHandoff (s : ServerState) (r : CreateRequest) : Handoff :=
  { id := s.nextId, botId := r.botId, userId := r.userId,
    userThreadId := r.userThreadId, userChannel := r.userChannel,
    agentId := none, agentThreadId := none, status := .pending,
    createdAt := s.clock, assignedAt := none, resolvedAt := none }

/-- State after the create handler persisted `newHandoff s r`
(`repository.createHandoff` then `state.cacheHandoff` under the
user-thread key). -/
def createdState (s : ServerState) (r : CreateRequest) : ServerState :=
  { s with handoffs := s.handoffs ++ [newHandoff s r],
           cache := cachePut s.cache r.botId r.userThreadId (newHandoff s r),
           nextId := s.nextId + 1, clock := s.clock + 1 }

def createHandoff (s : ServerState) (r : CreateRequest) : HandlerOut :=
  if ¬r.valid then ⟨s, [], .error .validationError⟩
  else
    match duplicateCheck s r.botId r.userId r.userThreadId r.userChannel with
    | some _ => ⟨s, [], .ok (.statusOnly 200)⟩
    | none =>
      ⟨createdState s r, [.handoffCreate (newHandoff s r)],
        .ok (.handoffBody 201 (newHandoff s r))⟩

/-- Modelled from the spec: `validateHandoffStatusRule(current, requested)`
from the `validation.ts` not included in `src/`.  Section 4.1: legal
transitions are `pending → assigned`, `pending → resolved`,
`assigned → resolved`; any other requested transition fails with an
`IllegalTransition` error identifying current and requested status. -/
def validateHandoffStatusRule (current requested : HandoffStatus) : Except ApiError Unit :=
  match current, requested with
  | .pending, .assigned => .ok ()
  | .pending, .resolved => .ok ()
  | .assigned, .resolved => .ok ()
  | c, r => .error (.illegalTransition c r)

/-- Modelled from the spec: the store's `getById` lookup of section 6
(`repository.getHandoff(id)`; the repository source is not in `src/`),
returning the record or NotFound. -/
def getHandoffById (s : ServerState) (hid : Nat) : Option Handoff :=
  s.handoffs.find? (fun h => h.id = hid)

/-- Modelled from the spec: the bot-scoped store lookup used by the assign
and resolve handlers (`repository.getHandoffWithComments(botId, id)`). -/
def getHandoffBot (s : ServerState) (b : String) (hid : Nat) : Option Handoff :=
  s.handoffs.find? (fun h => h.id = hid ∧ h.botId = b)

/-- Modelled from the spec: the store's `update(id, partialFields)` of
section 6 (`repository.updateHandoff`): replaces the record with the given
id. -/
def updateHandoffInStore (s : ServerState) (hid : Nat) (h1 : Handoff) : ServerState :=
  { s with handoffs := s.handoffs.map (fun h => if h.id = hid then h1 else h) }

/-- Input of the assign handler.  `newAgentThreadId` is the fresh operator
conversation obtained from the messaging collaborator
(`/mod/channel-web/conversations/:agentId/new`); `valid` is the outcome of
`Joi.attempt(payload, AssignHandoffSchema)` (schema modelled from the spec,
`validation.ts` not in `src/`). -/
structure AssignRequest where
  botId : String
  handoffId : Nat
  agentId : String
  newAgentThreadId : String
  valid : Bool
deriving DecidableEq, Repr

/-- `router.post('/handoffs/:id/assign')` (hitlnext `api.ts`, lines
227-309).  The `agentOnlineMiddleware` first rejects an offline operator;
then the hand-off is loaded (NotFound if missing), a fresh operator thread
is obtained, the payload is validated, `validateHandoffStatusRule` checks
`current → assigned`, and only then the record is updated, the cache gains
an entry under the operator-thread key, the operator's session is
refreshed, and an `update` fanout event is emitted.  (The two side-channel
custom events go through the external event-delivery collaborator, not the
realtime fanout.) -/
def assignHandoff (s : ServerState) (r : AssignRequest) : HandlerOut :=
  if ¬getAgentOnline s r.botId r.agentId then ⟨s, [], .error .agentOffline⟩
  else
    match getHandoffBot s r.botId r.handoffId with
    | none => ⟨s, [], .error .notFound⟩
    | some h =>
      if ¬r.valid then ⟨s, [], .error .validationError⟩
      else
        match validateHandoffStatusRule h.status .assigned with
        | .error e => ⟨s, [], .error e⟩
        | .ok _ =>
          let h1 : Handoff :=
            { h with agentId := some r.agentId, agentThreadId := some r.newAgentThreadId,
                     assignedAt := some s.clock, status := .assigned }
          let s1 := updateHandoffInStore s r.handoffId h1
          let s2 : ServerState :=
            { s1 with cache := cachePut s1.cache r.botId r.newAgentThreadId h1,
                      clock := s1.clock + 1 }
          let s3 := extendAgentSession s2 r.botId r.agentId
          ⟨s3, [.handoffUpdate h1], .ok (.handoffBody 200 h1)⟩

/-- Input of the resolve handler.  `valid` is the outcome of
`Joi.attempt(payload, ResolveHandoffSchema)`. -/
structure ResolveRequest where
  botId : String
  handoffId : Nat
  agentId : String
  valid : Bool
deriving DecidableEq, Repr

/-- `router.post('/handoffs/:id/resolve')` (hitlnext `api.ts`, lines
311-351).  After the online-middleware, load (NotFound if missing),
validate the payload, check `current → resolved`; then update the record,
remove the cache entry under the *user-thread* key only
(`state.expireHandoff(botId, handoff.userThreadId)`, line 336), refresh
the operator's session, and emit an `update` fanout event. -/
def resolveHandoff (s : ServerState) (r : ResolveRequest) : HandlerOut :=
  if ¬getAgentOnline s r.botId r.agentId then ⟨s, [], .error .agentOffline⟩
  else
    match getHandoffBot s r.botId r.handoffId with
    | none => ⟨s, [], .error .notFound⟩
    | some h =>
      if ¬r.valid then ⟨s, [], .error .validationError⟩
      else
        match validateHandoffStatusRule h.status .resolved with
        | .error e => ⟨s, [], .error e⟩
        | .ok _ =>
          let h1 : Handoff := { h with status := .resolved, resolvedAt := some s.clock }
          let s1 := updateHandoffInStore s r.handoffId h1
          let s2 : ServerState :=
            { s1 with cache := cacheDel s1.cache r.botId h1.userThreadId,
                      clock := s1.clock + 1 }
          let s3 := extendAgentSession s2 r.botId r.agentId
          ⟨s3, [.handoffUpdate h1], .ok (.handoffBody 200 h1)⟩

/-- Input of the comment handler.  `valid` is the outcome of
`Joi.attempt(payload, CreateCommentSchema)`. -/
structure CommentRequest where
  botId : String
  handoffId : Nat
  agentId : String
  content : String
  valid : Bool
deriving DecidableEq, Repr

/-- `router.post('/handoffs/:id/comments')` (hitlnext `api.ts`, lines
353-377).  This route has no `agentOnlineMiddleware`.  It loads the
hand-off by id (NotFound if missing) with no restriction on its status,
builds the comment payload with `threadId` denormalized from the
hand-off's `userThreadId`, validates it, persists the comment, refreshes
the operator's session, and responds 201 with the comment.  No
`realtime.sendPayload` call appears in this handler: it emits no fanout
event. -/
def newComment (s : ServerState) (r : CommentRequest) (h : Handoff) : Comment :=
  { id := s.nextId, handoffId := h.id, threadId := h.userThreadId,
    agentId := r.agentId, content := r.content, createdAt := s.clock }

/-- State after the comment handler persisted `newComment s r h`
(`repository.createComment` then `extendAgentSession`). -/
def commentedState (s : ServerState) (r : CommentRequest) (h : Handoff) : ServerState :=
  extendAgentSession
    { s with comments := s.comments ++ [newComment s r h],
             nextId := s.nextId + 1, clock := s.clock + 1 }
    r.botId r.agentId

def commentHandler (s : ServerState) (r : CommentRequest) : HandlerOut :=
  match getHandoffById s r.handoffId with
  | none => ⟨s, [], .error .notFound⟩
  | some h =>
    if ¬r.valid then ⟨s, [], .error .validationError⟩
    else ⟨commentedState s r h, [], .ok (.commentBody 201 (newComment s r h))⟩

/-- `router.post('/agents/me/online')` (hitl2 `api.ts`, lines 119-139,
materially identical to hitlnext lines 110-130): mark the operator online
in the store, register a session-expiry timer, emit an agent `update`
fanout event carrying the new flag, and respond with it. -/
def agentsMeOnlineHandler (s : ServerState) (b a : String) : HandlerOut :=
  let s1 := setAgentOnline s b a true
  let s2 := registerTimeout s1 a
  ⟨s2, [.agentUpdate a true], .ok (.onlineBody true)⟩


/-- A hand-off list starting with an element never has an empty
`firstByCreatedAt`. -/
theorem firstByCreatedAt_cons_ne_none (h : Handoff) (t : List Handoff) :
    firstByCreatedAt (h :: t) ≠ none := by
  cases hft : firstByCreatedAt t with
  | none => simp [firstByCreatedAt, hft]
  | some h2 =>
    simp only [firstByCreatedAt, hft]
    split <;> simp

/-- `firstByCreatedAt` returns nothing exactly on the empty list. -/
theorem firstByCreatedAt_eq_none_iff (l : List Handoff) :
    firstByCreatedAt l = none ↔ l = [] := by
  cases l with
  | nil => simp [firstByCreatedAt]
  | cons h t =>
    constructor
    · intro hc
      exact absurd hc (firstByCreatedAt_cons_ne_none h t)
    · intro hc
      cases hc

/-- The duplicate-check query is empty exactly when no store record passes
the four-field, non-resolved filter. -/
theorem duplicateCheck_eq_none_iff (s : ServerState) (b u t c : String) :
    duplicateCheck s b u t c = none ↔ activeMatches s b u t c = [] := by
  unfold duplicateCheck
  exact firstByCreatedAt_eq_none_iff _

/-- A create request carrying the given tuple, with a payload the schema
accepts. -/
def tupleReq (b u t c : String) (r : CreateRequest) : Prop :=
  r.botId = b ∧ r.userId = u ∧ r.userThreadId = t ∧ r.userChannel = c ∧ r.valid = true

instance (b u t c : String) (r : CreateRequest) : Decidable (tupleReq b u t c r) := by
  unfold tupleReq
  infer_instance

/-- When no active record matches the tuple, the create handler persists
the new `pending` record, caches it, emits the `create` fanout event and
responds 201 with it. -/
theorem createHandoff_of_noMatch (s : ServerState) (b u t c : String) (r : CreateRequest)
    (hr : tupleReq b u t c r) (h0 : activeMatches s b u t c = []) :
    createHandoff s r =
      ⟨createdState s r, [.handoffCreate (newHandoff s r)],
        .ok (.handoffBody 201 (newHandoff s r))⟩ := by
  obtain ⟨h1, h2, h3, h4, h5⟩ := hr
  subst h1; subst h2; subst h3; subst h4
  have hd : duplicateCheck s r.botId r.userId r.userThreadId r.userChannel = none :=
    (duplicateCheck_eq_none_iff s _ _ _ _).mpr h0
  simp [createHandoff, h5, hd]

/-- When some active record matches the tuple, the create handler is a
no-op responding with a bare 200. -/
theorem createHandoff_of_match (s : ServerState) (b u t c : String) (r : CreateRequest)
    (hr : tupleReq b u t c r) (h0 : activeMatches s b u t c ≠ []) :
    createHandoff s r = ⟨s, [], .ok (.statusOnly 200)⟩ := by
  obtain ⟨h1, h2, h3, h4, h5⟩ := hr
  subst h1; subst h2; subst h3; subst h4
  have hd : duplicateCheck s r.botId r.userId r.userThreadId r.userChannel ≠ none := by
    intro hc
    exact h0 ((duplicateCheck_eq_none_iff s _ _ _ _).mp hc)
  obtain ⟨x, hx⟩ := Option.ne_none_iff_exists'.mp hd
  simp [createHandoff, h5, hx]

/-- The record the create handler constructs passes its own duplicate
filter. -/
theorem matchesTuple_newHandoff (s : ServerState) (b u t c : String) (r : CreateRequest)
    (hr : tupleReq b u t c r) : matchesTuple (newHandoff s r) b u t c = true := by
  obtain ⟨h1, h2, h3, h4, _⟩ := hr
  subst h1; subst h2; subst h3; subst h4
  simp [matchesTuple, newHandoff]

/-- After a successful creation the active records for the tuple are
exactly the new record. -/
theorem activeMatches_createdState (s : ServerState) (b u t c : String) (r : CreateRequest)
    (hr : tupleReq b u t c r) (h0 : activeMatches s b u t c = []) :
    activeMatches (createdState s r) b u t c = [newHandoff s r] := by
  have hm := matchesTuple_newHandoff s b u t c r hr
  unfold activeMatches at h0 ⊢
  unfold createdState
  simp only [activeMatchesL, List.filter_append] at *
  rw [h0]
  simp [hm]

/-- Folding a sequence of create calls over the state, keeping each
call's resulting state (handler errors and no-ops leave the state as they
returned it). -/
def runCreates (s : ServerState) (rs : List CreateRequest) : ServerState :=
  rs.foldl (fun st q => (createHandoff st q).state) s

/-- Once an active record exists for the tuple, any further sequence of
create calls for the same tuple leaves the state untouched. -/
theorem runCreates_fixed (rs : List CreateRequest) (s : ServerState) (b u t c : String)
    (hall : ∀ q ∈ rs, tupleReq b u t c q) (h0 : activeMatches s b u t c ≠ []) :
    runCreates s rs = s := by
  induction rs with
  | nil => rfl
  | cons q qs ih =>
    have hq := hall q (List.mem_cons_self q qs)
    have hstep : createHandoff s q = ⟨s, [], .ok (.statusOnly 200)⟩ :=
      createHandoff_of_match s b u t c q hq h0
    unfold runCreates
    simp only [List.foldl_cons, hstep]
    exact ih (fun p hp => hall p (List.mem_cons_of_mem q hp))

/-- C1: for every sequence of create calls with identical (tenant,
userId, userThreadId, userChannel), issued strictly sequentially, exactly
one non-terminal Handoff exists for that tuple afterward: the first call
persists a pending Handoff and every later call persists nothing. -/
theorem c1_sequential_creates_single_active (s : ServerState) (b u t c : String)
    (r : CreateRequest) (rs : List CreateRequest)
    (h0 : activeMatches s b u t c = [])
    (hr : tupleReq b u t c r) (hall : ∀ q ∈ rs, tupleReq b u t c q) :
    (newHandoff s r).status = .pending ∧
    (createHandoff s r).state.handoffs = s.handoffs ++ [newHandoff s r] ∧
    runCreates (createHandoff s r).state rs = (createHandoff s r).state ∧
    activeMatches (runCreates (createHandoff s r).state rs) b u t c = [newHandoff s r] := by
  have hfirst := createHandoff_of_noMatch s b u t c r hr h0
  have hstate : (createHandoff s r).state = createdState s r := by rw [hfirst]
  have hact : activeMatches (createHandoff s r).state b u t c = [newHandoff s r] := by
    rw [hstate]
    exact activeMatches_createdState s b u t c r hr h0
  have hfix : runCreates (createHandoff s r).state rs = (createHandoff s r).state := by
    apply runCreates_fixed rs _ b u t c hall
    rw [hact]
    simp
  refine ⟨rfl, ?_, hfix, ?_⟩
  · rw [hstate]; rfl
  · rw [hfix]; exact hact

/-- Concrete instantiation of C1: an empty server, two identical create
calls for ("b", "u", "t", "web"). -/
theorem c1_sequential_creates_single_active_witness :
    (newHandoff ⟨[], [], [], [], [], [], 0, 0, 0⟩ ⟨"b", "u", "t", "web", true⟩).status = .pending ∧
    (createHandoff ⟨[], [], [], [], [], [], 0, 0, 0⟩ ⟨"b", "u", "t", "web", true⟩).state.handoffs =
      (⟨[], [], [], [], [], [], 0, 0, 0⟩ : ServerState).handoffs ++
        [newHandoff ⟨[], [], [], [], [], [], 0, 0, 0⟩ ⟨"b", "u", "t", "web", true⟩] ∧
    runCreates (createHandoff ⟨[], [], [], [], [], [], 0, 0, 0⟩ ⟨"b", "u", "t", "web", true⟩).state
        [⟨"b", "u", "t", "web", true⟩] =
      (createHandoff ⟨[], [], [], [], [], [], 0, 0, 0⟩ ⟨"b", "u", "t", "web", true⟩).state ∧
    activeMatches
        (runCreates (createHandoff ⟨[], [], [], [], [], [], 0, 0, 0⟩ ⟨"b", "u", "t", "web", true⟩).state
          [⟨"b", "u", "t", "web", true⟩]) "b" "u" "t" "web" =
      [newHandoff ⟨[], [], [], [], [], [], 0, 0, 0⟩ ⟨"b", "u", "t", "web", true⟩] :=
  c1_sequential_creates_single_active ⟨[], [], [], [], [], [], 0, 0, 0⟩ "b" "u" "t" "web"
    ⟨"b", "u", "t", "web", true⟩ [⟨"b", "u", "t", "web", true⟩]
    (by decide) (by decide) (by decide)

/-- Cancelling a timer touches only the live-timer set. -/
theorem unregisterTimeout_eq (s : ServerState) (a : String) :
    (unregisterTimeout s a).handoffs = s.handoffs ∧
    (unregisterTimeout s a).comments = s.comments ∧
    (unregisterTimeout s a).agentOnline = s.agentOnline ∧
    (unregisterTimeout s a).cache = s.cache ∧
    (unregisterTimeout s a).timeouts = s.timeouts ∧
    (unregisterTimeout s a).nextTimerId = s.nextTimerId ∧
    (unregisterTimeout s a).nextId = s.nextId ∧
    (unregisterTimeout s a).clock = s.clock := by
  unfold unregisterTimeout
  cases lookupTimeout s a <;> exact ⟨rfl, rfl, rfl, rfl, rfl, rfl, rfl, rfl⟩

/-- Registering a timer touches only the timer table and counters. -/
theorem registerTimeout_eq (s : ServerState) (a : String) :
    (registerTimeout s a).handoffs = s.handoffs ∧
    (registerTimeout s a).comments = s.comments ∧
    (registerTimeout s a).agentOnline = s.agentOnline ∧
    (registerTimeout s a).cache = s.cache ∧
    (registerTimeout s a).nextId = s.nextId ∧
    (registerTimeout s a).clock = s.clock := by
  have h := unregisterTimeout_eq s a
  unfold registerTimeout
  exact ⟨h.1, h.2.1, h.2.2.1, h.2.2.2.1, h.2.2.2.2.2.2.1, h.2.2.2.2.2.2.2⟩

/-- Refreshing a session touches neither the hand-off store, the
comment store, nor the cache. -/
theorem extendAgentSession_eq (s : ServerState) (b a : String) :
    (extendAgentSession s b a).handoffs = s.handoffs ∧
    (extendAgentSession s b a).comments = s.comments ∧
    (extendAgentSession s b a).cache = s.cache ∧
    (extendAgentSession s b a).nextId = s.nextId ∧
    (extendAgentSession s b a).clock = s.clock := by
  have h := registerTimeout_eq (setAgentOnline s b a true) a
  unfold extendAgentSession
  exact ⟨h.1, h.2.1, h.2.2.2.1, h.2.2.2.2.1, h.2.2.2.2.2⟩

/-- C2: a create call finding an existing non-terminal Handoff for the
tuple succeeds as a no-op — nothing is persisted, the cache is untouched
and no fanout event is emitted — but the response is a bare HTTP 200
(`res.sendStatus(200)`) carrying no body, not the existing record. -/
theorem c2_duplicate_create_noop (s : ServerState) (r : CreateRequest) (h0 : Handoff)
    (hv : r.valid = true)
    (hd : duplicateCheck s r.botId r.userId r.userThreadId r.userChannel = some h0) :
    createHandoff s r = ⟨s, [], .ok (.statusOnly 200)⟩ := by
  simp [createHandoff, hv, hd]

/-- The store record and request used by the C2 theorems: one pending
hand-off for ("b", "u", "t", "web") and a second create call for the same
tuple. -/
def c2Handoff : Handoff :=
  ⟨0, "b", "u", "t", "web", none, none, .pending, 0, none, none⟩

def c2State : ServerState := ⟨[c2Handoff], [], [], [], [], [], 0, 1, 1⟩

def c2Req : CreateRequest := ⟨"b", "u", "t", "web", true⟩

/-- C2 counterexample: the duplicate check finds the existing record, yet
the response is a bare 200 with no hand-off body — the existing Handoff
record is NOT returned to the caller. -/
theorem c2_counterexample :
    duplicateCheck c2State "b" "u" "t" "web" = some c2Handoff ∧
    (createHandoff c2State c2Req).result = .ok (.statusOnly 200) ∧
    responseHandoff (createHandoff c2State c2Req).result = none := by decide

/-- Concrete instantiation of the amended C2. -/
theorem c2_duplicate_create_noop_witness :
    createHandoff c2State c2Req = ⟨c2State, [], .ok (.statusOnly 200)⟩ :=
  c2_duplicate_create_noop c2State c2Req c2Handoff rfl (by decide)

/-- C3: `assign` on a Handoff whose status is not `pending` fails with an
IllegalTransition error identifying the current and requested status, and
`resolve` on a Handoff already `resolved` fails likewise; neither is a
silent no-op and the state (hence the Handoff record) is unchanged. -/
theorem c3_illegal_transition_errors (s : ServerState)
    (ra : AssignRequest) (rr : ResolveRequest) (ha hr : Handoff)
    (honA : getAgentOnline s ra.botId ra.agentId = true)
    (hgetA : getHandoffBot s ra.botId ra.handoffId = some ha)
    (hvA : ra.valid = true) (hsA : ha.status ≠ .pending)
    (honR : getAgentOnline s rr.botId rr.agentId = true)
    (hgetR : getHandoffBot s rr.botId rr.handoffId = some hr)
    (hvR : rr.valid = true) (hsR : hr.status = .resolved) :
    assignHandoff s ra = ⟨s, [], .error (.illegalTransition ha.status .assigned)⟩ ∧
    resolveHandoff s rr = ⟨s, [], .error (.illegalTransition .resolved .resolved)⟩ := by
  constructor
  · have hrule : validateHandoffStatusRule ha.status .assigned =
        .error (.illegalTransition ha.status .assigned) := by
      cases hst : ha.status <;> simp_all [validateHandoffStatusRule]
    simp [assignHandoff, honA, hgetA, hvA, hrule]
  · simp [resolveHandoff, honR, hgetR, hvR, hsR, validateHandoffStatusRule]

/-- The store used by the C3 witness: one assigned and one resolved
hand-off, with operator "ag" online. -/
def c3Assigned : Handoff :=
  ⟨0, "b", "u", "t", "web", some "ag", some "at", .assigned, 0, some 1, none⟩

def c3Resolved : Handoff :=
  ⟨1, "b", "u2", "t2", "web", none, none, .resolved, 0, none, some 1⟩

def c3State : ServerState :=
  ⟨[c3Assigned, c3Resolved], [], [(("b", "ag"), true)], [], [], [], 0, 2, 2⟩

/-- Concrete instantiation of C3: assigning an already-assigned hand-off
and resolving an already-resolved one. -/
theorem c3_illegal_transition_errors_witness :
    assignHandoff c3State ⟨"b", 0, "ag", "at2", true⟩ =
      ⟨c3State, [], .error (.illegalTransition .assigned .assigned)⟩ ∧
    resolveHandoff c3State ⟨"b", 1, "ag", true⟩ =
      ⟨c3State, [], .error (.illegalTransition .resolved .resolved)⟩ :=
  c3_illegal_transition_errors c3State ⟨"b", 0, "ag", "at2", true⟩ ⟨"b", 1, "ag", true⟩
    c3Assigned c3Resolved (by decide) (by decide) rfl (by decide)
    (by decide) (by decide) rfl (by decide)

theorem extendAgentSession_cache (s : ServerState) (b a : String) :
    (extendAgentSession s b a).cache = s.cache :=
  (extendAgentSession_eq s b a).2.2.1

theorem extendAgentSession_comments (s : ServerState) (b a : String) :
    (extendAgentSession s b a).comments = s.comments :=
  (extendAgentSession_eq s b a).2.1

/-- Searching for a predicate among exactly the elements where it fails
finds nothing. -/
theorem find?_filter_not {α : Type} (p : α → Bool) (l : List α) :
    (l.filter (fun x => !p x)).find? p = none := by
  induction l with
  | nil => rfl
  | cons x tl ih =>
    rw [List.filter_cons]
    cases hx : p x with
    | true => simp [hx, ih]
    | false => simp [hx, List.find?_cons, ih]

/-- Dropping the elements satisfying `p` does not change a search for a
predicate `q` incompatible with `p`. -/
theorem find?_filter_indep {α : Type} (p q : α → Bool) (l : List α)
    (hpq : ∀ x, q x = true → p x = false) :
    (l.filter (fun x => !p x)).find? q = l.find? q := by
  induction l with
  | nil => rfl
  | cons x tl ih =>
    rw [List.filter_cons]
    cases hx : p x with
    | true =>
      have hq : q x = false := by
        cases hqx : q x with
        | true =>
          rw [hpq x hqx] at hx
          cases hx
        | false => rfl
      simp [hx, List.find?_cons, hq, ih]
    | false =>
      cases hqx : q x with
      | true => simp [hx, List.find?_cons, hqx]
      | false => simp [hx, List.find?_cons, hqx, ih]

/-- Removing a cache key makes lookups under that key miss. -/
theorem cacheGet_cacheDel_self (c : List ((String × String) × Handoff)) (b t : String) :
    cacheGet (cacheDel c b t) b t = none := by
  unfold cacheGet cacheDel
  rw [find?_filter_not]
  rfl

/-- Removing a cache key leaves lookups under any other key unchanged. -/
theorem cacheGet_cacheDel_other (c : List ((String × String) × Handoff)) (b t k : String)
    (hk : ¬k = t) : cacheGet (cacheDel c b t) b k = cacheGet c b k := by
  unfold cacheGet cacheDel
  rw [find?_filter_indep]
  intro x hx
  have hx2 : x.1.1 = b ∧ x.1.2 = k := by simpa [keyIs] using hx
  by_cases hp : x.1.1 = b ∧ x.1.2 = t
  · exact absurd (hx2.2.symm.trans hp.2) hk
  · simpa [keyIs] using hp

/-- On a successful resolve, the handler's final cache is the incoming
cache with only the (botId, userThreadId) key removed. -/
theorem resolveHandoff_cache (s : ServerState) (r : ResolveRequest) (h : Handoff)
    (hon : getAgentOnline s r.botId r.agentId = true)
    (hget : getHandoffBot s r.botId r.handoffId = some h)
    (hv : r.valid = true) (hst : h.status ≠ .resolved) :
    (resolveHandoff s r).state.cache = cacheDel s.cache r.botId h.userThreadId := by
  have hrule : validateHandoffStatusRule h.status .resolved = .ok () := by
    cases hs2 : h.status <;> simp_all [validateHandoffStatusRule]
  simp [resolveHandoff, hon, hget, hv, hrule, extendAgentSession_cache, updateHandoffInStore]

/-- C4 (amended): after a successful resolve the Handoff is absent from
the Active-Handoff Cache under its user-thread key, but entries under any
other key — in particular the operator-thread key written by assign — are
NOT removed and remain as they were. -/
theorem c4_resolve_cache_keys (s : ServerState) (r : ResolveRequest) (h : Handoff)
    (k : String)
    (hon : getAgentOnline s r.botId r.agentId = true)
    (hget : getHandoffBot s r.botId r.handoffId = some h)
    (hv : r.valid = true) (hst : h.status ≠ .resolved)
    (hk : ¬k = h.userThreadId) :
    cacheGet (resolveHandoff s r).state.cache r.botId h.userThreadId = none ∧
    cacheGet (resolveHandoff s r).state.cache r.botId k = cacheGet s.cache r.botId k := by
  rw [resolveHandoff_cache s r h hon hget hv hst]
  exact ⟨cacheGet_cacheDel_self s.cache r.botId h.userThreadId,
    cacheGet_cacheDel_other s.cache r.botId h.userThreadId k hk⟩

/-- The C4 scenario: create a hand-off for user thread "ut", put operator
"ag" online, assign it (operator thread "at"), then resolve it. -/
def c4s1 : ServerState :=
  (createHandoff ⟨[], [], [], [], [], [], 0, 0, 0⟩ ⟨"b", "u", "ut", "web", true⟩).state

def c4s2 : ServerState := (agentsMeOnlineHandler c4s1 "b" "ag").state

def c4s3 : ServerState := (assignHandoff c4s2 ⟨"b", 0, "ag", "at", true⟩).state

def c4out : HandlerOut := resolveHandoff c4s3 ⟨"b", 0, "ag", true⟩

/-- The assigned record as it stands in the store just before resolve. -/
def c4Assigned : Handoff :=
  ⟨0, "b", "u", "ut", "web", some "ag", some "at", .assigned, 0, some 1, none⟩

/-- C4 counterexample: before resolve the record is cached under both the
user-thread key "ut" and the operator-thread key "at"; the resolve
succeeds, yet afterwards the record is still present under the
operator-thread key — it is absent only under the user-thread key. -/
theorem c4_counterexample :
    (cacheGet c4s3.cache "b" "ut").isSome = true ∧
    (cacheGet c4s3.cache "b" "at").isSome = true ∧
    resultOk c4out.result = true ∧
    (getHandoffById c4out.state 0).map Handoff.status = some .resolved ∧
    cacheGet c4out.state.cache "b" "ut" = none ∧
    (cacheGet c4out.state.cache "b" "at").isSome = true := by decide

/-- Concrete instantiation of the amended C4 on the same scenario. -/
theorem c4_resolve_cache_keys_witness :
    cacheGet (resolveHandoff c4s3 ⟨"b", 0, "ag", true⟩).state.cache "b" "ut" = none ∧
    cacheGet (resolveHandoff c4s3 ⟨"b", 0, "ag", true⟩).state.cache "b" "at" =
      cacheGet c4s3.cache "b" "at" :=
  c4_resolve_cache_keys c4s3 ⟨"b", 0, "ag", true⟩ c4Assigned "at"
    (by decide) (by decide) rfl (by decide) (by decide)

theorem registerTimeout_agentOnline (s : ServerState) (a : String) :
    (registerTimeout s a).agentOnline = s.agentOnline :=
  (registerTimeout_eq s a).2.2.1

/-- The online flag read back right after `setAgentOnline` is the flag
just written. -/
theorem getAgentOnline_setAgentOnline_self (s : ServerState) (b a : String) (v : Bool) :
    getAgentOnline (setAgentOnline s b a v) b a = v := by
  simp [getAgentOnline, setAgentOnline, List.find?_cons, keyIs]

/-- Two states sharing the online-flag store agree on every flag. -/
theorem getAgentOnline_congr (s1 s2 : ServerState) (b a : String)
    (h : s1.agentOnline = s2.agentOnline) : getAgentOnline s1 b a = getAgentOnline s2 b a := by
  unfold getAgentOnline
  rw [h]

/-- The two states the C5 counterexample fires the expiry callback in:
operator "ag" offline, respectively online. -/
def c5OffState : ServerState := ⟨[], [], [(("b", "ag"), false)], [], [], [], 0, 0, 0⟩

def c5OnState : ServerState := ⟨[], [], [(("b", "ag"), true)], [], [], [], 0, 0, 0⟩

/-- C5 counterexample: when the timer fires with the operator already
offline, the callback still emits a fanout event (the claim says it does
nothing); when it fires with the operator still online, it emits an event
carrying online = true and performs NO store write — the operator is not
flipped offline. -/
theorem c5_counterexample :
    getAgentOnline c5OffState "b" "ag" = false ∧
    timerExpiryCallback c5OffState "b" "ag" = (c5OffState, [.agentUpdate "ag" false]) ∧
    getAgentOnline c5OnState "b" "ag" = true ∧
    timerExpiryCallback c5OnState "b" "ag" = (c5OnState, [.agentUpdate "ag" true]) ∧
    getAgentOnline (timerExpiryCallback c5OnState "b" "ag").1 "b" "ag" = true := by decide

/-- C5 (amended): when the session-expiry timer fires, the callback
re-reads the operator's online status from the store and emits exactly one
presence `update` fanout event carrying that status, whatever it is; it
never writes the store.  Hence calling setOnline and letting the timeout
elapse with no further activity leaves the operator online in the store
and produces exactly one expiry fanout event, carrying online = true. -/
theorem c5_expiry_callback_behavior (s : ServerState) (b a : String) :
    timerExpiryCallback s b a = (s, [.agentUpdate a (getAgentOnline s b a)]) ∧
    getAgentOnline (agentsMeOnlineHandler s b a).state b a = true ∧
    timerExpiryCallback (agentsMeOnlineHandler s b a).state b a =
      ((agentsMeOnlineHandler s b a).state, [.agentUpdate a true]) := by
  have hon : getAgentOnline (agentsMeOnlineHandler s b a).state b a = true := by
    have h1 : (agentsMeOnlineHandler s b a).state = registerTimeout (setAgentOnline s b a true) a := rfl
    rw [h1,
      getAgentOnline_congr _ (setAgentOnline s b a true) b a
        (registerTimeout_agentOnline (setAgentOnline s b a true) a),
      getAgentOnline_setAgentOnline_self]
  refine ⟨rfl, hon, ?_⟩
  unfold timerExpiryCallback
  rw [hon]

/-- C7 (amended): a comment call on an existing Handoff — whatever its
status — persists a Comment whose thread id is denormalized from the
Handoff and refreshes the acting operator's presence session, but emits NO
fanout event (the handler contains no `realtime.sendPayload` call); for a
nonexistent handoffId it fails with NotFound and persists nothing. -/
theorem c7_comment_behavior (s s2 : ServerState) (r : CommentRequest) (h : Handoff)
    (hget : getHandoffById s r.handoffId = some h) (hv : r.valid = true)
    (hmiss : getHandoffById s2 r.handoffId = none) :
    commentHandler s r =
      ⟨commentedState s r h, [], .ok (.commentBody 201 (newComment s r h))⟩ ∧
    (newComment s r h).threadId = h.userThreadId ∧
    commentHandler s2 r = ⟨s2, [], .error .notFound⟩ := by
  refine ⟨?_, rfl, ?_⟩
  · simp [commentHandler, hget, hv]
  · simp [commentHandler, hmiss]

/-- The hand-off and request used by the C7 theorems. -/
def c7Handoff : Handoff :=
  ⟨0, "b", "u", "t", "web", none, none, .pending, 0, none, none⟩

def c7State : ServerState := ⟨[c7Handoff], [], [], [], [], [], 0, 1, 1⟩

def c7Req : CommentRequest := ⟨"b", 0, "ag", "hello", true⟩

/-- C7 counterexample: the comment call succeeds, persisting the comment
with the denormalized thread id "t", yet the handler's emitted fanout
event list is empty — no `update` event carrying the Handoff is
published. -/
theorem c7_counterexample :
    resultOk (commentHandler c7State c7Req).result = true ∧
    (commentHandler c7State c7Req).state.comments = [⟨1, 0, "t", "ag", "hello", 1⟩] ∧
    (commentHandler c7State c7Req).events = [] := by decide

/-- Concrete instantiation of the amended C7: commenting on the pending
hand-off succeeds without fanout; commenting against an empty store is
NotFound. -/
theorem c7_comment_behavior_witness :
    commentHandler c7State c7Req =
      ⟨commentedState c7State c7Req c7Handoff, [],
        .ok (.commentBody 201 (newComment c7State c7Req c7Handoff))⟩ ∧
    (newComment c7State c7Req c7Handoff).threadId = c7Handoff.userThreadId ∧
    commentHandler ⟨[], [], [], [], [], [], 0, 0, 0⟩ c7Req =
      ⟨⟨[], [], [], [], [], [], 0, 0, 0⟩, [], .error .notFound⟩ :=
  c7_comment_behavior c7State ⟨[], [], [], [], [], [], 0, 0, 0⟩ c7Req c7Handoff
    (by decide) rfl (by decide)

/-- C9 (amended): a Comment is created on any existing Handoff regardless
of its status — including `resolved` — by any operator regardless of
online status: the comments route has no online middleware and no status
check, so neither an offline operator nor a resolved Handoff is
rejected; only a nonexistent Handoff is. -/
theorem c9_comment_no_guards (s : ServerState) (r : CommentRequest) (h : Handoff)
    (hget : getHandoffById s r.handoffId = some h) (hv : r.valid = true) :
    resultOk (commentHandler s r).result = true ∧
    (commentHandler s r).state.comments = s.comments ++ [newComment s r h] := by
  have hrun : commentHandler s r =
      ⟨commentedState s r h, [], .ok (.commentBody 201 (newComment s r h))⟩ := by
    simp [commentHandler, hget, hv]
  rw [hrun]
  refine ⟨rfl, ?_⟩
  exact extendAgentSession_comments _ r.botId r.agentId

/-- The resolved hand-off, offline operator and request of the C9
theorems. -/
def c9Handoff : Handoff :=
  ⟨0, "b", "u", "t", "web", some "ag", some "at", .resolved, 0, some 1, some 2⟩

def c9State : ServerState := ⟨[c9Handoff], [], [(("b", "ag2"), false)], [], [], [], 0, 1, 3⟩

def c9Req : CommentRequest := ⟨"b", 0, "ag2", "note", true⟩

/-- C9 counterexample: operator "ag2" is offline and the hand-off is
resolved, yet the comment call succeeds and persists the comment — the
claimed rejection does not happen. -/
theorem c9_counterexample :
    getAgentOnline c9State "b" "ag2" = false ∧
    (getHandoffById c9State 0).map Handoff.status = some .resolved ∧
    resultOk (commentHandler c9State c9Req).result = true ∧
    (commentHandler c9State c9Req).state.comments.length = 1 := by decide

/-- Concrete instantiation of the amended C9 at the offline-operator,
resolved-hand-off input. -/
theorem c9_comment_no_guards_witness :
    resultOk (commentHandler c9State c9Req).result = true ∧
    (commentHandler c9State c9Req).state.comments =
      c9State.comments ++ [newComment c9State c9Req c9Handoff] :=
  c9_comment_no_guards c9State c9Req c9Handoff (by decide) rfl

/-- The cached record, state and request of the C8 theorems: the cache
holds an active hand-off for the tuple under the user-thread key while the
store is empty. -/
def c8Cached : Handoff :=
  ⟨7, "b", "u", "t", "web", none, none, .pending, 0, none, none⟩

def c8State : ServerState := ⟨[], [], [], [(("b", "t"), c8Cached)], [], [], 0, 0, 0⟩

def c8Req : CreateRequest := ⟨"b", "u", "t", "web", true⟩

/-- C8 counterexample: the Active-Handoff Cache holds a non-terminal
hand-off for the tuple under the user-thread key, yet the create handler
persists a brand-new record and emits a create event — the duplicate check
never consulted the cache, contradicting the claimed cache-first check. -/
theorem c8_counterexample :
    cacheGet c8State.cache "b" "t" = some c8Cached ∧
    matchesTuple c8Cached "b" "u" "t" "web" = true ∧
    (createHandoff c8State c8Req).state.handoffs.length = 1 ∧
    (createHandoff c8State c8Req).events.length = 1 := by decide

/-- C8 (amended): the duplicate check of every create call is performed
solely against the store — the query filtering on exactly the four fields
(tenant, userId, userThreadId, userChannel), excluding status `resolved`,
ordered by createdAt ascending and limited to one record — and never
consults the Active-Handoff Cache: the handler's store outcome, response
and events are the same for every cache content. -/
theorem c8_duplicate_check_store_only (s : ServerState) (r : CreateRequest)
    (c2 : List ((String × String) × Handoff)) (hv : r.valid = true) :
    ((createHandoff s r).result = .ok (.statusOnly 200) ↔
      ¬duplicateCheck s r.botId r.userId r.userThreadId r.userChannel = none) ∧
    (createHandoff { s with cache := c2 } r).state.handoffs = (createHandoff s r).state.handoffs ∧
    (createHandoff { s with cache := c2 } r).result = (createHandoff s r).result ∧
    (createHandoff { s with cache := c2 } r).events = (createHandoff s r).events := by
  have hd2 : duplicateCheck { s with cache := c2 } r.botId r.userId r.userThreadId r.userChannel =
      duplicateCheck s r.botId r.userId r.userThreadId r.userChannel := rfl
  cases hd : duplicateCheck s r.botId r.userId r.userThreadId r.userChannel with
  | none =>
    refine ⟨?_, ?_, ?_, ?_⟩ <;>
      simp [createHandoff, hv, hd, hd2.trans hd, newHandoff, createdState]
  | some x =>
    refine ⟨?_, ?_, ?_, ?_⟩ <;>
      simp [createHandoff, hv, hd, hd2.trans hd]

/-- Concrete instantiation of the amended C8 at the cache-stale state:
swapping in an empty cache changes nothing about the store outcome,
response, or events. -/
theorem c8_duplicate_check_store_only_witness :
    ((createHandoff c8State c8Req).result = .ok (.statusOnly 200) ↔
      ¬duplicateCheck c8State "b" "u" "t" "web" = none) ∧
    (createHandoff { c8State with cache := [] } c8Req).state.handoffs =
      (createHandoff c8State c8Req).state.handoffs ∧
    (createHandoff { c8State with cache := [] } c8Req).result =
      (createHandoff c8State c8Req).result ∧
    (createHandoff { c8State with cache := [] } c8Req).events =
      (createHandoff c8State c8Req).events :=
  c8_duplicate_check_store_only c8State c8Req [] rfl

/-- C10: a create, assign, resolve, or comment call whose payload fails
schema validation mutates nothing: the state (store, cache, presence,
timers) is returned unchanged, no fanout event is emitted, and the call
errors; whenever the guards preceding the validation pass (operator
online, hand-off found), the error is precisely the ValidationError. -/
theorem c10_validation_before_mutation (s : ServerState)
    (rc : CreateRequest) (ra : AssignRequest) (rr : ResolveRequest) (rm : CommentRequest)
    (hcv : rc.valid = false) (hav : ra.valid = false)
    (hrv : rr.valid = false) (hmv : rm.valid = false) :
    createHandoff s rc = ⟨s, [], .error .validationError⟩ ∧
    ((assignHandoff s ra).state = s ∧ (assignHandoff s ra).events = [] ∧
      resultOk (assignHandoff s ra).result = false) ∧
    (getAgentOnline s ra.botId ra.agentId = true →
      ¬getHandoffBot s ra.botId ra.handoffId = none →
      assignHandoff s ra = ⟨s, [], .error .validationError⟩) ∧
    ((resolveHandoff s rr).state = s ∧ (resolveHandoff s rr).events = [] ∧
      resultOk (resolveHandoff s rr).result = false) ∧
    (getAgentOnline s rr.botId rr.agentId = true →
      ¬getHandoffBot s rr.botId rr.handoffId = none →
      resolveHandoff s rr = ⟨s, [], .error .validationError⟩) ∧
    ((commentHandler s rm).state = s ∧ (commentHandler s rm).events = [] ∧
      resultOk (commentHandler s rm).result = false) ∧
    (¬getHandoffById s rm.handoffId = none →
      commentHandler s rm = ⟨s, [], .error .validationError⟩) := by
  have hcreate : createHandoff s rc = ⟨s, [], .error .validationError⟩ := by
    simp [createHandoff, hcv]
  have hassign : (assignHandoff s ra).state = s ∧ (assignHandoff s ra).events = [] ∧
      resultOk (assignHandoff s ra).result = false := by
    unfold assignHandoff
    by_cases hon : getAgentOnline s ra.botId ra.agentId
    · cases hget : getHandoffBot s ra.botId ra.handoffId with
      | none => simp [hon, hget, resultOk]
      | some h => simp [hon, hget, hav, resultOk]
    · simp [hon, resultOk]
  have hassign2 : getAgentOnline s ra.botId ra.agentId = true →
      ¬getHandoffBot s ra.botId ra.handoffId = none →
      assignHandoff s ra = ⟨s, [], .error .validationError⟩ := by
    intro hon hget
    obtain ⟨h, hh⟩ := Option.ne_none_iff_exists'.mp hget
    simp [assignHandoff, hon, hh, hav]
  have hresolve : (resolveHandoff s rr).state = s ∧ (resolveHandoff s rr).events = [] ∧
      resultOk (resolveHandoff s rr).result = false := by
    unfold resolveHandoff
    by_cases hon : getAgentOnline s rr.botId rr.agentId
    · cases hget : getHandoffBot s rr.botId rr.handoffId with
      | none => simp [hon, hget, resultOk]
      | some h => simp [hon, hget, hrv, resultOk]
    · simp [hon, resultOk]
  have hresolve2 : getAgentOnline s rr.botId rr.agentId = true →
      ¬getHandoffBot s rr.botId rr.handoffId = none →
      resolveHandoff s rr = ⟨s, [], .error .validationError⟩ := by
    intro hon hget
    obtain ⟨h, hh⟩ := Option.ne_none_iff_exists'.mp hget
    simp [resolveHandoff, hon, hh, hrv]
  have hcomment : (commentHandler s rm).state = s ∧ (commentHandler s rm).events = [] ∧
      resultOk (commentHandler s rm).result = false := by
    unfold commentHandler
    cases hget : getHandoffById s rm.handoffId with
    | none => simp [hget, resultOk]
    | some h => simp [hget, hmv, resultOk]
  have hcomment2 : ¬getHandoffById s rm.handoffId = none →
      commentHandler s rm = ⟨s, [], .error .validationError⟩ := by
    intro hget
    obtain ⟨h, hh⟩ := Option.ne_none_iff_exists'.mp hget
    simp [commentHandler, hh, hmv]
  exact ⟨hcreate, hassign, hassign2, hresolve, hresolve2, hcomment, hcomment2⟩

/-- The state of the C10 witness: one pending hand-off and an online
operator, so the validation-specific conclusions are non-vacuous. -/
def c10Handoff : Handoff :=
  ⟨0, "b", "u", "t", "web", none, none, .pending, 0, none, none⟩

def c10State : ServerState := ⟨[c10Handoff], [], [(("b", "ag"), true)], [], [], [], 0, 1, 1⟩

/-- Concrete instantiation of C10 with invalid payloads on every route. -/
theorem c10_validation_before_mutation_witness :
    createHandoff c10State ⟨"b", "u", "t", "web", false⟩ =
      ⟨c10State, [], .error .validationError⟩ ∧
    ((assignHandoff c10State ⟨"b", 0, "ag", "at", false⟩).state = c10State ∧
      (assignHandoff c10State ⟨"b", 0, "ag", "at", false⟩).events = [] ∧
      resultOk (assignHandoff c10State ⟨"b", 0, "ag", "at", false⟩).result = false) ∧
    (getAgentOnline c10State "b" "ag" = true →
      ¬getHandoffBot c10State "b" 0 = none →
      assignHandoff c10State ⟨"b", 0, "ag", "at", false⟩ =
        ⟨c10State, [], .error .validationError⟩) ∧
    ((resolveHandoff c10State ⟨"b", 0, "ag", false⟩).state = c10State ∧
      (resolveHandoff c10State ⟨"b", 0, "ag", false⟩).events = [] ∧
      resultOk (resolveHandoff c10State ⟨"b", 0, "ag", false⟩).result = false) ∧
    (getAgentOnline c10State "b" "ag" = true →
      ¬getHandoffBot c10State "b" 0 = none →
      resolveHandoff c10State ⟨"b", 0, "ag", false⟩ =
        ⟨c10State, [], .error .validationError⟩) ∧
    ((commentHandler c10State ⟨"b", 0, "ag", "x", false⟩).state = c10State ∧
      (commentHandler c10State ⟨"b", 0, "ag", "x", false⟩).events = [] ∧
      resultOk (commentHandler c10State ⟨"b", 0, "ag", "x", false⟩).result = false) ∧
    (¬getHandoffById c10State 0 = none →
      commentHandler c10State ⟨"b", 0, "ag", "x", false⟩ =
        ⟨c10State, [], .error .validationError⟩) :=
  c10_validation_before_mutation c10State ⟨"b", "u", "t", "web", false⟩
    ⟨"b", 0, "ag", "at", false⟩ ⟨"b", 0, "ag", false⟩ ⟨"b", 0, "ag", "x", false⟩
    rfl rfl rfl rfl

/-- All live timers registered for an operator. -/
def agentLiveTimers (s : ServerState) (a : String) : List Timer :=
  s.liveTimers.filter (fun t => t.agentId = a)

/-- Well-formedness of the timer state maintained by the handlers: every
live timer's handle is exactly the handle recorded for its operator in
`state.timeouts`, live handles are pairwise distinct, and every handle is
below the fresh-handle counter. -/
def TimerInv (s : ServerState) : Prop :=
  (∀ t ∈ s.liveTimers, lookupTimeout s t.agentId = some t.id) ∧
  (s.liveTimers.map Timer.id).Nodup ∧
  (∀ t ∈ s.liveTimers, t.id < s.nextTimerId)

instance (s : ServerState) : Decidable (TimerInv s) := by
  unfold TimerInv
  infer_instance

/-- After `unregisterTimeout`, the operator has no live timer left: the
cancelled handle is, by the invariant, the handle of every live timer the
operator had. -/
theorem unregisterTimeout_no_agent_timer (s : ServerState) (a : String)
    (hl : ∀ t ∈ s.liveTimers, lookupTimeout s t.agentId = some t.id) :
    ∀ t ∈ (unregisterTimeout s a).liveTimers, ¬t.agentId = a := by
  intro t ht hta
  unfold unregisterTimeout at ht
  cases hlk : lookupTimeout s a with
  | none =>
    simp only [hlk] at ht
    have hx := hl t ht
    rw [hta, hlk] at hx
    cases hx
  | some tid =>
    simp only [hlk] at ht
    have hmem := List.mem_filter.mp ht
    have hx := hl t hmem.1
    rw [hta, hlk] at hx
    have hid : t.id = tid := by
      injection hx with hx2
      exact hx2.symm
    have hne : ¬t.id = tid := by simpa using hmem.2
    exact hne hid

/-- Cancelling a timer only removes live timers. -/
theorem unregisterTimeout_liveTimers_sublist (s : ServerState) (a : String) :
    List.Sublist (unregisterTimeout s a).liveTimers s.liveTimers := by
  unfold unregisterTimeout
  cases hlk : lookupTimeout s a with
  | none =>
    simp only [hlk]
    exact List.Sublist.refl _
  | some tid =>
    simp only [hlk]
    exact List.filter_sublist _

/-- One timer registration: the timer invariant is preserved, the operator
ends with the newly armed timer as its ONLY live timer, and every
previously live timer of that operator is cancelled — its handle is gone
from the live handles, so its expiry callback can never fire. -/
theorem registerTimeout_step (s : ServerState) (a : String) (hinv : TimerInv s) :
    TimerInv (registerTimeout s a) ∧
    agentLiveTimers (registerTimeout s a) a = [⟨s.nextTimerId, a⟩] ∧
    (∀ t ∈ s.liveTimers, t.agentId = a →
      ¬t.id ∈ (registerTimeout s a).liveTimers.map Timer.id) := by
  obtain ⟨hl, hn, hb⟩ := hinv
  have hna := unregisterTimeout_no_agent_timer s a hl
  have hsub := unregisterTimeout_liveTimers_sublist s a
  have hsubm : ∀ t ∈ (unregisterTimeout s a).liveTimers, t ∈ s.liveTimers :=
    fun t ht => hsub.subset ht
  have hUnext : (unregisterTimeout s a).nextTimerId = s.nextTimerId :=
    (unregisterTimeout_eq s a).2.2.2.2.2.1
  have hUtimeouts : (unregisterTimeout s a).timeouts = s.timeouts :=
    (unregisterTimeout_eq s a).2.2.2.2.1
  have hRlive : (registerTimeout s a).liveTimers =
      (unregisterTimeout s a).liveTimers ++ [⟨(unregisterTimeout s a).nextTimerId, a⟩] := rfl
  have hRtimeouts : (registerTimeout s a).timeouts =
      (a, (unregisterTimeout s a).nextTimerId) ::
        (unregisterTimeout s a).timeouts.filter (fun e => !fstIs a e) := rfl
  have hRnext : (registerTimeout s a).nextTimerId =
      (unregisterTimeout s a).nextTimerId + 1 := rfl
  have hlkRa : lookupTimeout (registerTimeout s a) a =
      some (unregisterTimeout s a).nextTimerId := by
    unfold lookupTimeout
    rw [hRtimeouts, List.find?_cons]
    simp [fstIs]
  have hlkR : ∀ x, ¬x = a →
      lookupTimeout (registerTimeout s a) x = lookupTimeout s x := by
    intro x hx
    have hhead : fstIs x ((a, (unregisterTimeout s a).nextTimerId) : String × Nat) = false := by
      simp only [fstIs, decide_eq_false_iff_not]
      intro hc
      exact hx hc.symm
    unfold lookupTimeout
    rw [hRtimeouts, List.find?_cons]
    simp only [hhead]
    rw [find?_filter_indep]
    · rw [hUtimeouts]
    · intro e he
      have he2 : e.1 = x := by simpa [fstIs] using he
      have he3 : ¬e.1 = a := by
        rw [he2]
        exact hx
      simp [fstIs, he3]
  have hfilterU : (unregisterTimeout s a).liveTimers.filter (fun t => t.agentId = a) = [] := by
    apply List.filter_eq_nil_iff.mpr
    intro t ht
    simpa using hna t ht
  refine ⟨⟨?_, ?_, ?_⟩, ?_, ?_⟩
  · intro t ht
    rw [hRlive] at ht
    cases List.mem_append.mp ht with
    | inl htU =>
      have hA := hna t htU
      rw [hlkR t.agentId hA]
      exact hl t (hsubm t htU)
    | inr htS =>
      have := List.mem_singleton.mp htS
      subst this
      exact hlkRa
  · rw [hRlive, List.map_append, List.map_cons, List.map_nil]
    apply List.nodup_append.mpr
    refine ⟨hn.sublist (hsub.map Timer.id), List.nodup_singleton _, ?_⟩
    intro x hxU hxS
    have hx1 : x = (unregisterTimeout s a).nextTimerId := List.mem_singleton.mp hxS
    obtain ⟨u, huU, hui⟩ := List.mem_map.mp hxU
    have hu2 := hb u (hsubm u huU)
    rw [hui, hx1, hUnext] at hu2
    exact Nat.lt_irrefl _ hu2
  · intro t ht
    rw [hRlive] at ht
    rw [hRnext]
    cases List.mem_append.mp ht with
    | inl htU =>
      have := hb t (hsubm t htU)
      rw [← hUnext] at this
      exact Nat.lt_succ_of_lt this
    | inr htS =>
      have := List.mem_singleton.mp htS
      subst this
      exact Nat.lt_succ_self _
  · unfold agentLiveTimers
    rw [hRlive, List.filter_append, hfilterU]
    simp [hUnext]
  · intro t ht hta hmem
    rw [hRlive, List.map_append, List.map_cons, List.map_nil] at hmem
    cases List.mem_append.mp hmem with
    | inl hU =>
      obtain ⟨u, huU, hui⟩ := List.mem_map.mp hU
      have hueq : u = t := List.inj_on_of_nodup_map hn (hsubm u huU) ht hui
      subst hueq
      exact hna u huU hta
    | inr hS =>
      have hid : t.id = (unregisterTimeout s a).nextTimerId := List.mem_singleton.mp hS
      have hlt := hb t ht
      rw [hUnext] at hid
      omega

/-- C6: at most one live session-expiry timer exists per operator:
registering a timer always cancels the previously registered one, so after
one — or two consecutive — registrations for the same operator exactly one
live timer remains (the newest), and every superseded timer's handle is
gone from the live set, so no expiry callback ever fires for a superseded
registration. -/
theorem c6_one_live_timer_per_operator (s : ServerState) (a : String) (hinv : TimerInv s) :
    TimerInv (registerTimeout s a) ∧
    agentLiveTimers (registerTimeout s a) a = [⟨s.nextTimerId, a⟩] ∧
    agentLiveTimers (registerTimeout (registerTimeout s a) a) a =
      [⟨(registerTimeout s a).nextTimerId, a⟩] ∧
    List.Disjoint ((agentLiveTimers s a).map Timer.id)
      ((registerTimeout s a).liveTimers.map Timer.id) := by
  obtain ⟨h1, h2, h3⟩ := registerTimeout_step s a hinv
  obtain ⟨_, h2b, _⟩ := registerTimeout_step (registerTimeout s a) a h1
  refine ⟨h1, h2, h2b, ?_⟩
  intro x hx1 hx2
  obtain ⟨t, htf, hti⟩ := List.mem_map.mp hx1
  have htmem := List.mem_filter.mp htf
  have hta : t.agentId = a := by simpa using htmem.2
  rw [← hti] at hx2
  exact h3 t htmem.1 hta hx2

/-- The state of the C6 witness: operator "ag" already holds the live
timer with handle 3, recorded in the timer table, fresh counter at 5. -/
def c6State : ServerState := ⟨[], [], [], [], [("ag", 3)], [⟨3, "ag"⟩], 5, 0, 0⟩

/-- Concrete instantiation of C6: re-registering (twice) on a state with a
live timer leaves exactly one live timer each time, and the old handle 3
is disjoint from the new live handles. -/
theorem c6_one_live_timer_per_operator_witness :
    TimerInv (registerTimeout c6State "ag") ∧
    agentLiveTimers (registerTimeout c6State "ag") "ag" = [⟨c6State.nextTimerId, "ag"⟩] ∧
    agentLiveTimers (registerTimeout (registerTimeout c6State "ag") "ag") "ag" =
      [⟨(registerTimeout c6State "ag").nextTimerId, "ag"⟩] ∧
    List.Disjoint ((agentLiveTimers c6State "ag").map Timer.id)
      ((registerTimeout c6State "ag").liveTimers.map Timer.id) :=
  c6_one_live_timer_per_operator c6State "ag" (by decide)
